import Mathlib

/-!
Verification of the harmonyz "optifleet" mock fleet-location service.
Embeds the location-generation, authentication and configuration-edit
logic of `src/optifleet/app.py` (authenticated variant) and
`src/optifleet/app1.py` (unauthenticated variant) as executable Lean
definitions, and proves the specified properties about them.

Machine reals (Python floats) are modelled as rationals; Python's
`round(x, 6)` is modelled as exact decimal rounding half-to-even at six
decimal places.  Random draws (`random.choice`, `random.uniform`,
`random.randint`) and the clock are modelled as explicit streams carried
in an `Rng` structure, indexed by the position of the draw.
-/

namespace Optifleet

/-- A base city entry of the configuration (`DEFAULT_CONFIG['locations']`
element shape in both app.py and app1.py): name, lat, lng, country. -/
structure Location where
  name : String
  lat : ℚ
  lng : ℚ
  country : String
deriving DecidableEq, Repr

/-- The loaded configuration dictionary, after `load_config` has
back-filled `api_keys` and `plate_mappings`.  `plate_mappings` is a
Python dict, modelled as an association list with unique keys and
first-match lookup. -/
structure Config where
  locations : List Location
  response_format : String
  include_timestamp : Bool
  max_locations_per_request : ℤ
  api_keys : List String
  plate_mappings : List (String × String)
deriving DecidableEq, Repr

/-- One synthesized location record (`location_data` dict in
`generate_random_location_data`); optional fields are `none` when the
corresponding key is not put into the dict. -/
structure LocationRecord where
  latitude : ℚ
  longitude : ℚ
  plate_number : Option String
  city : Option String
  country : Option String
  accuracy : Option ℤ
  altitude : Option ℤ
  fuel_level : Option ℤ
  timestamp : Option String
deriving DecidableEq, Repr

/-- Streams supplying every random draw and clock reading a generation
call can make, indexed by record position.  `choice i` is the index
drawn by the i-th `random.choice`; `latOff`/`lngOff` model
`random.uniform(-0.1, 0.1)` (boundedness is a hypothesis where needed);
`accuracy`, `altitude`, `fuel` model the `random.randint` calls; `time`
models `datetime.utcnow().isoformat()`. -/
structure Rng where
  choice : Nat → Nat
  latOff : Nat → ℚ
  lngOff : Nat → ℚ
  accuracy : Nat → ℤ
  altitude : Nat → ℤ
  fuel : Nat → ℤ
  time : Nat → String

/-- Round-half-to-even to the nearest integer, the tie rule of Python's
built-in `round`. -/
def roundHalfEven (x : ℚ) : ℤ :=
  if x - x.floor < 1/2 then x.floor
  else if 1/2 < x - x.floor then x.floor + 1
  else if x.floor % 2 = 0 then x.floor else x.floor + 1

/-- Python's `round(x, 6)`: decimal rounding at six places. -/
def round6 (x : ℚ) : ℚ := (roundHalfEven (x * 1000000) : ℚ) / 1000000

/-- Python truthiness of an optional string (`None` and `''` are falsy). -/
def truthyStr : Option String → Bool
  | none => false
  | some s => s ≠ ""

/-- `random.choice(xs)` with the drawn index supplied: raises
`IndexError("Cannot choose from an empty sequence")` on an empty list,
otherwise returns the element at the drawn position. -/
def randomChoice (xs : List Location) (i : Nat) : Except String Location :=
  match xs.get? (i % xs.length) with
  | some x => Except.ok x
  | none => Except.error "Cannot choose from an empty sequence"

/-- Base-city resolution of app.py `generate_random_location_data`
(lines 81-88): if the plate is truthy and is a key of `plate_mappings`,
look the mapped city name up in `locations` (first match); fall back to
`random.choice(locations)` when the name is absent, the plate unmapped,
or no plate was given. -/
def resolveBaseA (plate : Option String) (cfg : Config) (idx : Nat) :
    Except String Location :=
  match plate with
  | some p =>
    if p ≠ "" then
      match cfg.plate_mappings.lookup p with
      | some cityName =>
        match cfg.locations.find? (fun loc => loc.name = cityName) with
        | some loc => Except.ok loc
        | none => randomChoice cfg.locations idx
      | none => randomChoice cfg.locations idx
    else randomChoice cfg.locations idx
  | none => randomChoice cfg.locations idx

/-- One record of app.py `generate_random_location_data` (lines 93-117):
perturbed rounded coordinates, plate if truthy, detailed fields
(city/country/accuracy/altitude/fuel_level) when
`response_format == 'detailed'`, timestamp when `include_timestamp`. -/
def makeRecordA (base : Location) (plate : Option String) (cfg : Config)
    (rng : Rng) (i : Nat) : LocationRecord :=
  { latitude := round6 (base.lat + rng.latOff i)
    longitude := round6 (base.lng + rng.lngOff i)
    plate_number := if truthyStr plate then plate else none
    city := if cfg.response_format = "detailed" then some base.name else none
    country := if cfg.response_format = "detailed" then some base.country else none
    accuracy := if cfg.response_format = "detailed" then some (rng.accuracy i) else none
    altitude := if cfg.response_format = "detailed" then some (rng.altitude i) else none
    fuel_level := if cfg.response_format = "detailed" then some (rng.fuel i) else none
    timestamp := if cfg.include_timestamp then some (rng.time i ++ "Z") else none }

/-- app.py `generate_random_location_data(plate_number, count, config)`:
resolve the base once, then emit `min(count, max_locations_per_request)`
records around it (an empty run of the loop for a non-positive bound,
matching Python `range`). -/
def generateA (plate : Option String) (count : ℤ) (cfg : Config) (rng : Rng) :
    Except String (List LocationRecord) :=
  match resolveBaseA plate cfg (rng.choice 0) with
  | Except.error e => Except.error e
  | Except.ok base =>
    Except.ok ((List.range (min count cfg.max_locations_per_request).toNat).map
      (makeRecordA base plate cfg rng))

/-- One record of app1.py `generate_random_location_data` (lines 55-75):
no plate, no fuel_level; otherwise as in app.py. -/
def makeRecordB (base : Location) (cfg : Config) (rng : Rng) (i : Nat) :
    LocationRecord :=
  { latitude := round6 (base.lat + rng.latOff i)
    longitude := round6 (base.lng + rng.lngOff i)
    plate_number := none
    city := if cfg.response_format = "detailed" then some base.name else none
    country := if cfg.response_format = "detailed" then some base.country else none
    accuracy := if cfg.response_format = "detailed" then some (rng.accuracy i) else none
    altitude := if cfg.response_format = "detailed" then some (rng.altitude i) else none
    fuel_level := none
    timestamp := if cfg.include_timestamp then some (rng.time i ++ "Z") else none }

/-- app1.py `generate_random_location_data(count, config)`: the base
city is drawn by `random.choice` inside the loop, independently for
every record (line 53). -/
def generateB (count : ℤ) (cfg : Config) (rng : Rng) :
    Except String (List LocationRecord) :=
  (List.range (min count cfg.max_locations_per_request).toNat).mapM
    (fun i => (randomChoice cfg.locations (rng.choice i)).map
      (fun base => makeRecordB base cfg rng i))

/-- Outcome of the `require_api_key` decorator (app.py lines 50-69):
either a denial response (HTTP status plus the `message` of the
`{status:'error', message:...}` body) or letting the wrapped handler
run. -/
inductive AuthDecision where
  | deny (httpStatus : Nat) (message : String)
  | allow
deriving DecidableEq, Repr

/-- Python `a or b` on optional strings (`headers.get(...) or
args.get(...)`): the first operand when truthy, otherwise the second
operand as-is. -/
def pyOr (a b : Option String) : Option String :=
  match a with
  | some s => if s = "" then b else some s
  | none => b

def msg401 : String :=
  "API key required. Provide via X-API-Key header or api_key parameter."

/-- app.py `require_api_key` (lines 50-69): the effective credential is
the header value or-else the query value; a falsy credential gives 401,
a credential not in `api_keys` gives 403, a member lets the handler
run. -/
def requireApiKey (header query : Option String) (keys : List String) :
    AuthDecision :=
  match pyOr header query with
  | none => AuthDecision.deny 401 msg401
  | some s =>
    if s = "" then AuthDecision.deny 401 msg401
    else if s ∈ keys then AuthDecision.allow
    else AuthDecision.deny 403 "Invalid API key."

/-- Response of a location API endpoint: a success body carrying the
record, or an error body (HTTP status plus the `message` field). -/
inductive ApiResponse where
  | success (data : LocationRecord)
  | err (status : Nat) (message : String)
deriving DecidableEq, Repr

/-- app.py `get_single_location` (lines 123-145), after the auth
decorator: 400 when `plate_number` is falsy, otherwise
`generate_random_location_data(plate_number, 1, config)[0]`, with any
raised exception turned into a 500 response carrying its message. -/
def getSingleLocation (plate : Option String) (cfg : Config) (rng : Rng) :
    ApiResponse :=
  match plate with
  | none => ApiResponse.err 400 "plate_number parameter is required."
  | some p =>
    if p = "" then ApiResponse.err 400 "plate_number parameter is required."
    else
      match generateA (some p) 1 cfg rng with
      | Except.error e => ApiResponse.err 500 e
      | Except.ok [] => ApiResponse.err 500 "list index out of range"
      | Except.ok (r :: _) => ApiResponse.success r

/-- Whether a character is a decimal digit. -/
def isDigitCh (c : Char) : Bool := '0' ≤ c ∧ c ≤ '9'

/-- Numeric value of a digit string. -/
def digitsToNat (l : List Char) : ℕ :=
  l.foldl (fun acc c => acc * 10 + (c.toNat - '0'.toNat)) 0

/-- Python's built-in `float()` restricted to plain decimal literals
(optional sign, digits, optional fractional part); anything else —
including the empty string — fails, modelling the raised `ValueError`. -/
def pyFloat (s : String) : Option ℚ :=
  let cs := s.toList
  let signRest : ℚ × List Char :=
    match cs with
    | '-' :: r => (-1, r)
    | '+' :: r => (1, r)
    | r => (1, r)
  let intPart := signRest.2.takeWhile isDigitCh
  let rest := signRest.2.dropWhile isDigitCh
  match rest with
  | [] =>
    if intPart = [] then none
    else some (signRest.1 * (digitsToNat intPart : ℚ))
  | '.' :: frac =>
    if frac.all isDigitCh ∧ (intPart ≠ [] ∨ frac ≠ []) then
      some (signRest.1 *
        ((digitsToNat intPart : ℚ) + (digitsToNat frac : ℚ) / (10 ^ frac.length)))
    else none
  | _ => none

/-- Python's built-in `int()` restricted to plain decimal integer
literals (optional sign, digits). -/
def pyInt (s : String) : Option ℤ :=
  let cs := s.toList
  let signRest : ℤ × List Char :=
    match cs with
    | '-' :: r => (-1, r)
    | '+' :: r => (1, r)
    | r => (1, r)
  if signRest.2 ≠ [] ∧ signRest.2.all isDigitCh then
    some (signRest.1 * (digitsToNat signRest.2 : ℤ))
  else none

/-- One location row of the `/update-config` form: the
`location_name_{i}` key is present (it drives the `while` loop) with
this value; the lat/lng/country fields may be absent (`form.get`
returning None). -/
structure LocRow where
  name : String
  lat : Option String
  lng : Option String
  country : Option String
deriving DecidableEq, Repr

/-- The `/update-config` form submission, with each index-suffixed
family (`api_key_{i}`, `plate_number_{i}`/`plate_city_{i}`,
`location_name_{i}`/...) given as the gapless index prefix its `while`
loop traverses. -/
structure EditForm where
  apiKeys : List String
  plates : List (String × Option String)
  response_format : Option String
  include_timestamp : Option String
  max_locations : Option String
  locationRows : List LocRow
deriving DecidableEq, Repr

/-- app.py `update_config` lines 401-408: keep the truthy `api_key_{i}`
values in order. -/
def collectApiKeys (l : List String) : List String := l.filter (fun s => s ≠ "")

/-- Python dict assignment `d[k] = v` on an association list with unique
keys: overwrite in place if the key exists, else append. -/
def dictInsert (d : List (String × String)) (k v : String) :
    List (String × String) :=
  if d.any (fun p => p.1 = k) then
    d.map (fun p => if p.1 = k then (k, v) else p)
  else d ++ [(k, v)]

/-- app.py `update_config` lines 410-418: rebuild `plate_mappings` from
the pairs whose plate and city are both truthy. -/
def collectPlates (l : List (String × Option String)) : List (String × String) :=
  l.foldl (fun d pr =>
    match pr.2 with
    | some c => if pr.1 ≠ "" ∧ c ≠ "" then dictInsert d pr.1 c else d
    | none => d) []

/-- app.py `update_config` lines 426-441: keep the rows with all four
fields truthy, parsing latitude and longitude with `float()`; a parse
failure raises `ValueError`, aborting the whole edit. -/
def collectLocations : List LocRow → Except String (List Location)
  | [] => Except.ok []
  | row :: rest =>
    if row.name ≠ "" ∧ truthyStr row.lat ∧ truthyStr row.lng ∧
        truthyStr row.country then
      match pyFloat (row.lat.getD "") with
      | none =>
        Except.error ("could not convert string to float: '" ++
          row.lat.getD "" ++ "'")
      | some la =>
        match pyFloat (row.lng.getD "") with
        | none =>
          Except.error ("could not convert string to float: '" ++
            row.lng.getD "" ++ "'")
        | some ln =>
          (collectLocations rest).map
            (fun ls => { name := row.name, lat := la, lng := ln,
                         country := row.country.getD "" } :: ls)
    else collectLocations rest

/-- app.py `update_config` (lines 396-450), up to the `save_config`
call: compute the edited configuration, or the message of the raised
exception.  The locations list replaces the current one only when
non-empty (line 443-444). -/
def updateConfig (form : EditForm) (cfg : Config) : Except String Config :=
  let keys := collectApiKeys form.apiKeys
  let plates := collectPlates form.plates
  let rf := form.response_format.getD "detailed"
  let ts := form.include_timestamp = some "true"
  let maxRes : Except String ℤ :=
    match form.max_locations with
    | none => Except.ok 10
    | some s =>
      match pyInt s with
      | some n => Except.ok n
      | none =>
        Except.error ("invalid literal for int() with base 10: '" ++ s ++ "'")
  match maxRes with
  | Except.error e => Except.error e
  | Except.ok maxL =>
    match collectLocations form.locationRows with
    | Except.error e => Except.error e
    | Except.ok locs =>
      Except.ok { cfg with
        api_keys := keys
        plate_mappings := plates
        response_format := rf
        include_timestamp := ts
        max_locations_per_request := maxL
        locations := if locs = [] then cfg.locations else locs }

/-- Response of the `/update-config` route: a redirect to the config
page on success, or the plain-text error with its HTTP status. -/
inductive UpdateResult where
  | redirect
  | errorText (status : Nat) (message : String)
deriving DecidableEq, Repr

/-- The `/update-config` route against a stored configuration: on
success the edited configuration is saved (second component); on any
exception the 500 plain-text response is returned and the store is
untouched (`save_config` never runs). -/
def updateConfigRoute (form : EditForm) (stored : Config) :
    UpdateResult × Config :=
  match updateConfig form stored with
  | Except.ok cfg => (UpdateResult.redirect, cfg)
  | Except.error e =>
    (UpdateResult.errorText 500 ("Error updating configuration: " ++ e), stored)

/-! ### Concrete fixtures used by witnesses and counterexamples -/

/-- New York entry of `DEFAULT_CONFIG`. -/
def nycLoc : Location := ⟨"New York", 40.7128, -74.0060, "USA"⟩

/-- London entry of `DEFAULT_CONFIG`. -/
def lonLoc : Location := ⟨"London", 51.5074, -0.1278, "UK"⟩

/-- Fallback element for `List.getD`; never the result of an in-bounds read. -/
def defaultLoc : Location := ⟨"", 0, 0, ""⟩

/-- A two-city detailed configuration. -/
def baseCfg : Config :=
  { locations := [nycLoc, lonLoc], response_format := "detailed",
    include_timestamp := false, max_locations_per_request := 10,
    api_keys := [], plate_mappings := [] }

/-- A deterministic stream assignment: choice i = i, zero offsets. -/
def rng0 : Rng :=
  { choice := fun i => i, latOff := fun _ => 0, lngOff := fun _ => 0,
    accuracy := fun _ => 0, altitude := fun _ => 0, fuel := fun _ => 0,
    time := fun _ => "" }

/-- Configuration with an empty locations list. -/
def cfgEmptyLoc : Config := { baseCfg with locations := [] }

/-- Configuration mapping plate ABC123 to London. -/
def cfgMapped : Config :=
  { baseCfg with plate_mappings := [("ABC123", "London")] }

/-- The spec's stale-mapping scenario: single city NYC, plate ABC123
mapped to a name not in the list. -/
def cfgStale : Config :=
  { baseCfg with locations := [nycLoc],
                 plate_mappings := [("ABC123", "NYC-missing")] }

/-- Configuration holding one API key. -/
def cfgKeys : Config := { baseCfg with api_keys := ["secret"] }

/-- A base city whose latitude is not a multiple of 10^-6. -/
def offGridLoc : Location := ⟨"Gridless", 3/5000000, 0, "X"⟩

/-- Configuration around `offGridLoc`. -/
def cfgOffGrid : Config := { baseCfg with locations := [offGridLoc] }

/-- Streams drawing the extreme uniform offset 0.1 for latitude. -/
def rngMaxOff : Rng := { rng0 with latOff := fun _ => 1/10 }

/-- Edit form with a row whose latitude is non-numeric but whose country
field is empty (the row is dropped, not rejected). -/
def formRowDropped : EditForm :=
  { apiKeys := [], plates := [], response_format := none,
    include_timestamp := none, max_locations := none,
    locationRows := [{ name := "A", lat := some "abc", lng := some "2",
                       country := some "" }] }

/-- Edit form with a complete row whose latitude is non-numeric. -/
def formRowBad : EditForm :=
  { formRowDropped with
    locationRows := [{ name := "A", lat := some "abc", lng := some "2",
                       country := some "B" }] }

/-- Edit form submitting zero location rows. -/
def formNoRows : EditForm := { formRowDropped with locationRows := [] }

/-! ### Helper lemmas -/

/-- The executable `Rat.floor` agrees with Mathlib's floor. -/
theorem ratFloor_eq_floor (x : ℚ) : x.floor = ⌊x⌋ := by
  have h1 : x.floor ≤ ⌊x⌋ := Int.le_floor.mpr (Rat.le_floor.mp le_rfl)
  have h2 : ⌊x⌋ ≤ x.floor := Rat.le_floor.mpr (Int.le_floor.mp le_rfl)
  omega

/-- `roundHalfEven` stays within any integer bracket around its input. -/
theorem roundHalfEven_bracket (x : ℚ) (lo hi : ℤ)
    (hlo : (lo : ℚ) ≤ x) (hhi : x ≤ (hi : ℚ)) :
    lo ≤ roundHalfEven x ∧ roundHalfEven x ≤ hi := by
  have hfl : lo ≤ ⌊x⌋ := Int.le_floor.mpr hlo
  have hfu : ⌊x⌋ ≤ hi := by
    have h := Int.floor_le_floor (α := ℚ) hhi
    simpa using h
  unfold roundHalfEven
  rw [ratFloor_eq_floor]
  split_ifs with h1 h2 h3
  · exact ⟨hfl, hfu⟩
  · refine ⟨by omega, ?_⟩
    by_contra hcon
    have hfe : ⌊x⌋ = hi := by omega
    rw [hfe] at h2
    linarith
  · exact ⟨hfl, hfu⟩
  · push_neg at h1
    refine ⟨by omega, ?_⟩
    by_contra hcon
    have hfe : ⌊x⌋ = hi := by omega
    rw [hfe] at h1
    linarith

/-- `roundHalfEven` moves its input by at most one half. -/
theorem abs_roundHalfEven_sub (x : ℚ) : |(roundHalfEven x : ℚ) - x| ≤ 1/2 := by
  have hx : (⌊x⌋ : ℚ) ≤ x := Int.floor_le x
  have hx2 : x < ⌊x⌋ + 1 := Int.lt_floor_add_one x
  unfold roundHalfEven
  rw [ratFloor_eq_floor]
  split_ifs with h1 h2 h3 <;> push_neg at * <;> rw [abs_le] <;>
    constructor <;> push_cast <;> linarith

/-- Rounded-to-six-places values are integer multiples of 10^-6. -/
theorem round6_micro (x : ℚ) : ∃ n : ℤ, round6 x = n / 1000000 :=
  ⟨roundHalfEven (x * 1000000), rfl⟩

/-- When the base coordinate is a multiple of 10^-6, a bounded offset
stays bounded after rounding. -/
theorem round6_grid_bound (b off : ℚ) (a : ℤ) (hb : b = (a : ℚ) / 1000000)
    (hoff : |off| ≤ 1/10) : |round6 (b + off) - b| ≤ 1/10 := by
  have hoff' := abs_le.mp hoff
  have harg : ((b + off) * 1000000) = (a : ℚ) + off * 1000000 := by
    rw [hb]; ring
  have hlo : ((a - 100000 : ℤ) : ℚ) ≤ (b + off) * 1000000 := by
    rw [harg]; push_cast; linarith
  have hhi : (b + off) * 1000000 ≤ ((a + 100000 : ℤ) : ℚ) := by
    rw [harg]; push_cast; linarith
  obtain ⟨h1, h2⟩ := roundHalfEven_bracket _ _ _ hlo hhi
  set n := roundHalfEven ((b + off) * 1000000) with hn
  have hq1 : ((a : ℚ) - 100000) ≤ (n : ℚ) := by exact_mod_cast h1
  have hq2 : (n : ℚ) ≤ (a : ℚ) + 100000 := by exact_mod_cast h2
  have heq : round6 (b + off) - b = ((n : ℚ) - a) / 1000000 := by
    rw [round6, ← hn, hb]; ring
  rw [heq, abs_le]
  constructor
  · rw [le_div_iff₀ (by norm_num : (0:ℚ) < 1000000)]; linarith
  · rw [div_le_iff₀ (by norm_num : (0:ℚ) < 1000000)]; linarith

/-- A bounded offset stays within the bound plus half an ulp after
rounding, for any base. -/
theorem round6_general_bound (b off : ℚ) (hoff : |off| ≤ 1/10) :
    |round6 (b + off) - b| ≤ 1/10 + 1/2000000 := by
  have h := abs_le.mp (abs_roundHalfEven_sub ((b + off) * 1000000))
  have hoff' := abs_le.mp hoff
  have heq : round6 (b + off) - b =
      ((roundHalfEven ((b + off) * 1000000) : ℚ) - (b + off) * 1000000) / 1000000
        + off := by
    rw [round6]; ring
  rw [heq, abs_le]
  have hlo : -(1/2000000 : ℚ) ≤
      ((roundHalfEven ((b + off) * 1000000) : ℚ) - (b + off) * 1000000) / 1000000 := by
    rw [le_div_iff₀ (by norm_num : (0:ℚ) < 1000000)]; linarith
  have hhi : (((roundHalfEven ((b + off) * 1000000) : ℚ) -
      (b + off) * 1000000) / 1000000 : ℚ) ≤ 1/2000000 := by
    rw [div_le_iff₀ (by norm_num : (0:ℚ) < 1000000)]; linarith
  constructor <;> linarith

/-- On a non-empty list, the modelled `random.choice` returns the
element at the drawn position and never errors. -/
theorem randomChoice_ok (xs : List Location) (i : Nat) (h : xs ≠ []) :
    randomChoice xs i = Except.ok (xs.getD (i % xs.length) defaultLoc) ∧
    xs.getD (i % xs.length) defaultLoc ∈ xs := by
  have hlen : 0 < xs.length := List.length_pos.mpr h
  have hm : i % xs.length < xs.length := Nat.mod_lt _ hlen
  have hget : xs.get? (i % xs.length) = some (xs.get ⟨i % xs.length, hm⟩) :=
    List.get?_eq_get hm
  constructor
  · rw [randomChoice, hget, List.getD_eq_get?, hget]; rfl
  · rw [List.getD_eq_get?, hget]
    exact List.get_mem xs _ hm

/-- `resolveBaseA` never errors on a non-empty locations list. -/
theorem resolveBaseA_ok (plate : Option String) (cfg : Config) (idx : Nat)
    (h : cfg.locations ≠ []) :
    ∃ loc, loc ∈ cfg.locations ∧ resolveBaseA plate cfg idx = Except.ok loc := by
  have hrc := randomChoice_ok cfg.locations idx h
  cases plate with
  | none => exact ⟨_, hrc.2, by rw [resolveBaseA]; exact hrc.1⟩
  | some p =>
    by_cases hp : p = ""
    · refine ⟨_, hrc.2, ?_⟩
      rw [resolveBaseA]
      simp only [ne_eq, hp, not_true_eq_false, if_false]
      exact hrc.1
    · rcases hlk : cfg.plate_mappings.lookup p with _ | city
      · refine ⟨_, hrc.2, ?_⟩
        rw [resolveBaseA]
        simp only [ne_eq, hp, not_false_eq_true, if_true, hlk]
        exact hrc.1
      · rcases hf : cfg.locations.find? (fun loc => loc.name = city) with _ | loc
        · refine ⟨_, hrc.2, ?_⟩
          rw [resolveBaseA]
          simp only [ne_eq, hp, not_false_eq_true, if_true, hlk, hf]
          exact hrc.1
        · refine ⟨loc, List.mem_of_find?_eq_some hf, ?_⟩
          rw [resolveBaseA]
          simp only [ne_eq, hp, not_false_eq_true, if_true, hlk, hf]

/-- `mapM` into `Except` succeeds pointwise. -/
theorem mapM_ok {α β : Type} (f : α → Except String β) (g : α → β)
    (l : List α) (h : ∀ a ∈ l, f a = Except.ok (g a)) :
    l.mapM f = Except.ok (l.map g) := by
  induction l with
  | nil => rfl
  | cons a rest ih =>
    rw [List.mapM_cons, h a (List.mem_cons_self a rest),
      ih (fun x hx => h x (List.mem_cons_of_mem a hx))]
    rfl

/-! ### Claim theorems -/

/-- C1: for every configuration and every plate identifier that is a key
of `plate_mappings` whose mapped city name has a matching entry in
`locations`, resolution returns exactly the first Location in
`locations` whose name equals the mapped name, for every draw of the
random stream — deterministically, never a randomly chosen one. -/
theorem c1_resolve_mapped_first (cfg : Config) (p city : String)
    (hp : p ≠ "")
    (hmap : cfg.plate_mappings.lookup p = some city)
    (hex : ∃ loc ∈ cfg.locations, loc.name = city) :
    ∃ loc, (∀ idx : Nat, resolveBaseA (some p) cfg idx = Except.ok loc) ∧
      loc.name = city ∧
      ∃ pre post, cfg.locations = pre ++ loc :: post ∧
        ∀ l0 ∈ pre, l0.name ≠ city := by
  obtain ⟨loc0, hmem, hname⟩ := hex
  have hsome : (cfg.locations.find? (fun loc => loc.name = city)).isSome := by
    rw [List.find?_isSome]
    exact ⟨loc0, hmem, by simp [hname]⟩
  obtain ⟨loc, hf⟩ := Option.isSome_iff_exists.mp hsome
  obtain ⟨hploc, as, bs, hsplit, hprev⟩ := List.find?_eq_some.mp hf
  refine ⟨loc, ?_, by simpa using hploc, as, bs, hsplit, ?_⟩
  · intro idx
    rw [resolveBaseA]
    simp only [ne_eq, hp, not_false_eq_true, if_true, hmap, hf]
  · intro l0 hl0
    have hneg := hprev l0 hl0
    simpa using hneg

/-- Witness for C1: in `cfgMapped`, plate ABC123 is mapped to London and
resolution returns the London entry on every draw, the first match. -/
theorem c1_witness :
    (("ABC123" : String) ≠ "") ∧
    cfgMapped.plate_mappings.lookup "ABC123" = some "London" ∧
    (∃ loc ∈ cfgMapped.locations, loc.name = "London") ∧
    (∃ loc, (∀ idx : Nat,
        resolveBaseA (some "ABC123") cfgMapped idx = Except.ok loc) ∧
      loc.name = "London" ∧
      ∃ pre post, cfgMapped.locations = pre ++ loc :: post ∧
        ∀ l0 ∈ pre, l0.name ≠ "London") :=
  ⟨by decide, by decide, by decide,
   c1_resolve_mapped_first cfgMapped "ABC123" "London" (by decide) (by decide)
     (by decide)⟩

/-- C2 (amended, authenticated variant): app.py resolves the base city
once per request, before the record loop, and every record of the
returned sequence carries that single base's city name and country in
detailed format. -/
theorem c2_single_base_per_request (plate : Option String) (count : ℤ)
    (cfg : Config) (rng : Rng) (l : List LocationRecord)
    (h : generateA plate count cfg rng = Except.ok l) :
    ∃ base, resolveBaseA plate cfg (rng.choice 0) = Except.ok base ∧
      ∀ r ∈ l,
        r.city = (if cfg.response_format = "detailed" then some base.name
                  else none) ∧
        r.country = (if cfg.response_format = "detailed" then some base.country
                     else none) := by
  rw [generateA] at h
  rcases hres : resolveBaseA plate cfg (rng.choice 0) with e | base
  · rw [hres] at h; cases h
  · rw [hres] at h
    refine ⟨base, rfl, ?_⟩
    injection h with h'
    subst h'
    intro r hr
    simp only [List.mem_map] at hr
    obtain ⟨i, _, rfl⟩ := hr
    exact ⟨rfl, rfl⟩

/-- Counterexample to C2 as stated: in the unauthenticated variant
(app1.py), the base city is drawn independently per record, so a
two-record detailed request against the two-city configuration yields
records with different city names. -/
theorem c2_counterexample :
    ¬ (∀ r1 ∈ (generateB 2 baseCfg rng0).toOption.getD [],
        ∀ r2 ∈ (generateB 2 baseCfg rng0).toOption.getD [],
         r1.city = r2.city) := by decide

/-- Witness for C2 (amended): a one-record request against `cfgMapped`
resolves London once and the record carries London's name and country. -/
theorem c2_witness :
    generateA (some "ABC123") 1 cfgMapped rng0 =
      Except.ok [makeRecordA lonLoc (some "ABC123") cfgMapped rng0 0] ∧
    (∃ base, resolveBaseA (some "ABC123") cfgMapped (rng0.choice 0) =
        Except.ok base ∧
      ∀ r ∈ [makeRecordA lonLoc (some "ABC123") cfgMapped rng0 0],
        r.city = (if cfgMapped.response_format = "detailed" then some base.name
                  else none) ∧
        r.country = (if cfgMapped.response_format = "detailed" then
                       some base.country
                     else none)) :=
  ⟨by rfl,
   c2_single_base_per_request (some "ABC123") 1 cfgMapped rng0
     [makeRecordA lonLoc (some "ABC123") cfgMapped rng0 0] (by rfl)⟩

/-- C3: with non-empty locations, a plate mapped to a city name absent
from `locations` (stale mapping) degrades to a randomly chosen member of
`locations` and never raises; the generated records are based on that
member. -/
theorem c3_stale_mapping_fallback (cfg : Config) (p city : String)
    (count : ℤ) (rng : Rng)
    (hne : cfg.locations ≠ [])
    (hp : p ≠ "")
    (hmap : cfg.plate_mappings.lookup p = some city)
    (hstale : cfg.locations.find? (fun loc => loc.name = city) = none) :
    ∃ loc, loc ∈ cfg.locations ∧
      resolveBaseA (some p) cfg (rng.choice 0) = Except.ok loc ∧
      ∃ l, generateA (some p) count cfg rng = Except.ok l ∧
        ∀ r ∈ l, r.city =
          (if cfg.response_format = "detailed" then some loc.name else none) := by
  have hrc := randomChoice_ok cfg.locations (rng.choice 0) hne
  have hres : resolveBaseA (some p) cfg (rng.choice 0) =
      Except.ok (cfg.locations.getD (rng.choice 0 % cfg.locations.length)
        defaultLoc) := by
    rw [resolveBaseA]
    simp only [ne_eq, hp, not_false_eq_true, if_true, hmap, hstale]
    exact hrc.1
  refine ⟨_, hrc.2, hres,
    (List.range (min count cfg.max_locations_per_request).toNat).map
      (makeRecordA
        (cfg.locations.getD (rng.choice 0 % cfg.locations.length) defaultLoc)
        (some p) cfg rng), ?_, ?_⟩
  · rw [generateA, hres]
  · intro r hr
    simp only [List.mem_map] at hr
    obtain ⟨i, _, rfl⟩ := hr
    rfl

/-- Witness for C3: the spec's scenario — locations = [NYC], plate
ABC123 mapped to the missing name "NYC-missing" — falls back to NYC and
produces a record, not an error. -/
theorem c3_witness :
    cfgStale.locations ≠ [] ∧ (("ABC123" : String) ≠ "") ∧
    cfgStale.plate_mappings.lookup "ABC123" = some "NYC-missing" ∧
    cfgStale.locations.find? (fun loc => loc.name = "NYC-missing") = none ∧
    (∃ loc, loc ∈ cfgStale.locations ∧
      resolveBaseA (some "ABC123") cfgStale (rng0.choice 0) = Except.ok loc ∧
      ∃ l, generateA (some "ABC123") 1 cfgStale rng0 = Except.ok l ∧
        ∀ r ∈ l, r.city =
          (if cfgStale.response_format = "detailed" then some loc.name
           else none)) :=
  ⟨by decide, by decide, by decide, by decide,
   c3_stale_mapping_fallback cfgStale "ABC123" "NYC-missing" 1 rng0
     (by decide) (by decide) (by decide) (by decide)⟩

/-- C4: with a non-empty locations list, both variants return a sequence
of length `min(count, max_locations_per_request)` (clamped at zero), and
an empty sequence — never an error — when the requested count is not
positive. -/
theorem c4_effective_count (plate : Option String) (count : ℤ) (cfg : Config)
    (rng : Rng) (hne : cfg.locations ≠ []) :
    (∃ l, generateA plate count cfg rng = Except.ok l ∧
      l.length = (min count cfg.max_locations_per_request).toNat ∧
      (count ≤ 0 → l.length = 0)) ∧
    (∃ l, generateB count cfg rng = Except.ok l ∧
      l.length = (min count cfg.max_locations_per_request).toNat ∧
      (count ≤ 0 → l.length = 0)) := by
  have hzero : count ≤ 0 → (min count cfg.max_locations_per_request).toNat = 0 := by
    intro hc; rw [Int.toNat_eq_zero]; omega
  constructor
  · obtain ⟨base, hmem, hres⟩ := resolveBaseA_ok plate cfg (rng.choice 0) hne
    refine ⟨(List.range (min count cfg.max_locations_per_request).toNat).map
      (makeRecordA base plate cfg rng), ?_, ?_, ?_⟩
    · rw [generateA, hres]
    · simp
    · intro hc; simp [hzero hc]
  · have hmm := mapM_ok
      (fun i => (randomChoice cfg.locations (rng.choice i)).map
        (fun base => makeRecordB base cfg rng i))
      (fun i => makeRecordB
        (cfg.locations.getD (rng.choice i % cfg.locations.length) defaultLoc)
        cfg rng i)
      (List.range (min count cfg.max_locations_per_request).toNat)
      (fun i _ => by
        show (randomChoice cfg.locations (rng.choice i)).map
            (fun base => makeRecordB base cfg rng i) =
          Except.ok (makeRecordB
            (cfg.locations.getD (rng.choice i % cfg.locations.length)
              defaultLoc) cfg rng i)
        rw [(randomChoice_ok cfg.locations (rng.choice i) hne).1]
        rfl)
    refine ⟨(List.range (min count cfg.max_locations_per_request).toNat).map
      (fun i => makeRecordB
        (cfg.locations.getD (rng.choice i % cfg.locations.length) defaultLoc)
        cfg rng i), ?_, ?_, ?_⟩
    · rw [generateB]; exact hmm
    · simp
    · intro hc; simp [hzero hc]

/-- Witness for C4: the spec's scenario count = 100 against cap 10
yields exactly 10 records, and a negative count yields none. -/
theorem c4_witness :
    baseCfg.locations ≠ [] ∧
    (∃ l, generateA (some "ABC123") 100 baseCfg rng0 = Except.ok l ∧
      l.length = (min 100 baseCfg.max_locations_per_request).toNat ∧
      ((100 : ℤ) ≤ 0 → l.length = 0)) ∧
    (∃ l, generateB (-3) baseCfg rng0 = Except.ok l ∧
      l.length = (min (-3) baseCfg.max_locations_per_request).toNat ∧
      ((-3 : ℤ) ≤ 0 → l.length = 0)) :=
  ⟨by decide,
   (c4_effective_count (some "ABC123") 100 baseCfg rng0 (by decide)).1,
   (c4_effective_count (some "ABC123") (-3) baseCfg rng0 (by decide)).2⟩

set_option maxRecDepth 8000 in
/-- Counterexample to C5 as stated: with base latitude 0.0000006 (not a
multiple of 10^-6) and the admissible uniform draw 0.1, the rounded
latitude deviates from the base by 0.1000004 > 0.1. -/
theorem c5_counterexample :
    |rngMaxOff.latOff 0| ≤ 1/10 ∧
    ¬ (|(makeRecordA offGridLoc none cfgOffGrid rngMaxOff 0).latitude -
        offGridLoc.lat| ≤ 1/10) := by
  constructor
  · show |(1/10 : ℚ)| ≤ 1/10
    rw [abs_of_nonneg (by norm_num : (0:ℚ) ≤ 1/10)]
  · have hlatval : (makeRecordA offGridLoc none cfgOffGrid rngMaxOff 0).latitude =
        100001/1000000 := by with_unfolding_all rfl
    have hval : (makeRecordA offGridLoc none cfgOffGrid rngMaxOff 0).latitude -
        offGridLoc.lat = 1000004/10000000 := by
      rw [hlatval]
      show (100001/1000000 : ℚ) - 3/5000000 = 1000004/10000000
      norm_num
    rw [hval, abs_of_nonneg (by norm_num : (0:ℚ) ≤ 1000004/10000000)]
    norm_num

/-- C5 (amended): every record of either variant, built from base city b
with offsets drawn from [-0.1, 0.1], satisfies
|latitude - b.lat| ≤ 0.1 + 0.0000005 (and ≤ 0.1 exactly whenever b's
coordinate is a multiple of 10^-6, as all shipped city coordinates are),
analogously for longitude, and both coordinates are exact multiples of
10^-6 (rounded to six decimal places). -/
theorem c5_record_bounds (base : Location) (plate : Option String)
    (cfg : Config) (rng : Rng) (i : Nat)
    (hlat : |rng.latOff i| ≤ 1/10) (hlng : |rng.lngOff i| ≤ 1/10) :
    (|(makeRecordA base plate cfg rng i).latitude - base.lat| ≤
        1/10 + 1/2000000) ∧
    (|(makeRecordA base plate cfg rng i).longitude - base.lng| ≤
        1/10 + 1/2000000) ∧
    ((∃ a : ℤ, base.lat = (a : ℚ) / 1000000) →
      |(makeRecordA base plate cfg rng i).latitude - base.lat| ≤ 1/10) ∧
    ((∃ a : ℤ, base.lng = (a : ℚ) / 1000000) →
      |(makeRecordA base plate cfg rng i).longitude - base.lng| ≤ 1/10) ∧
    (∃ n : ℤ, (makeRecordA base plate cfg rng i).latitude =
        (n : ℚ) / 1000000) ∧
    (∃ n : ℤ, (makeRecordA base plate cfg rng i).longitude =
        (n : ℚ) / 1000000) ∧
    (makeRecordB base cfg rng i).latitude =
      (makeRecordA base plate cfg rng i).latitude ∧
    (makeRecordB base cfg rng i).longitude =
      (makeRecordA base plate cfg rng i).longitude := by
  refine ⟨round6_general_bound base.lat (rng.latOff i) hlat,
    round6_general_bound base.lng (rng.lngOff i) hlng, ?_, ?_,
    round6_micro _, round6_micro _, rfl, rfl⟩
  · rintro ⟨a, ha⟩
    exact round6_grid_bound base.lat (rng.latOff i) a ha hlat
  · rintro ⟨a, ha⟩
    exact round6_grid_bound base.lng (rng.lngOff i) a ha hlng

/-- Witness for C5 (amended) at the NYC base with the extreme draw 0.1:
the record's latitude is 40.8128, within 0.1 of 40.7128. -/
theorem c5_witness :
    |rngMaxOff.latOff 0| ≤ 1/10 ∧ |rngMaxOff.lngOff 0| ≤ 1/10 ∧
    ((|(makeRecordA nycLoc none baseCfg rngMaxOff 0).latitude -
        nycLoc.lat| ≤ 1/10 + 1/2000000) ∧
     (|(makeRecordA nycLoc none baseCfg rngMaxOff 0).longitude -
        nycLoc.lng| ≤ 1/10 + 1/2000000) ∧
     ((∃ a : ℤ, nycLoc.lat = (a : ℚ) / 1000000) →
       |(makeRecordA nycLoc none baseCfg rngMaxOff 0).latitude -
         nycLoc.lat| ≤ 1/10) ∧
     ((∃ a : ℤ, nycLoc.lng = (a : ℚ) / 1000000) →
       |(makeRecordA nycLoc none baseCfg rngMaxOff 0).longitude -
         nycLoc.lng| ≤ 1/10) ∧
     (∃ n : ℤ, (makeRecordA nycLoc none baseCfg rngMaxOff 0).latitude =
         (n : ℚ) / 1000000) ∧
     (∃ n : ℤ, (makeRecordA nycLoc none baseCfg rngMaxOff 0).longitude =
         (n : ℚ) / 1000000) ∧
     (makeRecordB nycLoc baseCfg rngMaxOff 0).latitude =
       (makeRecordA nycLoc none baseCfg rngMaxOff 0).latitude ∧
     (makeRecordB nycLoc baseCfg rngMaxOff 0).longitude =
       (makeRecordA nycLoc none baseCfg rngMaxOff 0).longitude) :=
  ⟨by show |(1/10 : ℚ)| ≤ 1/10
      rw [abs_of_nonneg (by norm_num : (0:ℚ) ≤ 1/10)],
   by show |(0 : ℚ)| ≤ 1/10
      rw [abs_of_nonneg (by norm_num : (0:ℚ) ≤ 0)]
      norm_num,
   c5_record_bounds nycLoc none baseCfg rngMaxOff 0
     (by show |(1/10 : ℚ)| ≤ 1/10
         rw [abs_of_nonneg (by norm_num : (0:ℚ) ≤ 1/10)])
     (by show |(0 : ℚ)| ≤ 1/10
         rw [abs_of_nonneg (by norm_num : (0:ℚ) ≤ 0)]
         norm_num)⟩

/-- C6: in the authenticated variant, an absent credential yields the
401 "API key required" error body; a presented non-empty credential
outside the configured key set yields 403; a member is allowed; and a
non-empty header credential is the one used even when a query credential
is also present. -/
theorem c6_auth_policy (header query : Option String) (keys : List String) :
    ((header = none ∨ header = some "") ∧ (query = none ∨ query = some "") →
      requireApiKey header query keys = AuthDecision.deny 401 msg401) ∧
    (∀ s, pyOr header query = some s → s ≠ "" → s ∉ keys →
      requireApiKey header query keys =
        AuthDecision.deny 403 "Invalid API key.") ∧
    (∀ s, pyOr header query = some s → s ≠ "" → s ∈ keys →
      requireApiKey header query keys = AuthDecision.allow) ∧
    (∀ h0, header = some h0 → h0 ≠ "" → pyOr header query = some h0) := by
  refine ⟨?_, ?_, ?_, ?_⟩
  · rintro ⟨h1 | h1, h2 | h2⟩ <;> subst h1 <;> subst h2 <;> rfl
  · intro s hs hne hnotin
    rw [requireApiKey, hs]
    simp [hne, hnotin]
  · intro s hs hne hin
    rw [requireApiKey, hs]
    simp [hne, hin]
  · intro h0 hh hne
    subst hh
    rw [pyOr]
    simp [hne]

/-- Witness for C6: missing key gives 401, an unknown key gives 403, the
configured key is allowed, and the header value wins over the query
value. -/
theorem c6_witness :
    requireApiKey none none ["secret"] = AuthDecision.deny 401 msg401 ∧
    requireApiKey (some "bad") none ["secret"] =
      AuthDecision.deny 403 "Invalid API key." ∧
    requireApiKey (some "secret") (some "other") ["secret"] =
      AuthDecision.allow ∧
    pyOr (some "secret") (some "other") = some "secret" :=
  ⟨(c6_auth_policy none none ["secret"]).1 ⟨Or.inl rfl, Or.inl rfl⟩,
   (c6_auth_policy (some "bad") none ["secret"]).2.1 "bad" (by decide)
     (by decide) (by decide),
   (c6_auth_policy (some "secret") (some "other") ["secret"]).2.2.1 "secret"
     (by decide) (by decide) (by decide),
   (c6_auth_policy (some "secret") (some "other") ["secret"]).2.2.2 "secret"
     rfl (by decide)⟩

/-- Counterexample to C7 as stated: with no locations configured, the
surfaced 500 message is the raised IndexError's text, not
"no locations configured". -/
theorem c7_counterexample :
    getSingleLocation (some "ABC123") cfgEmptyLoc rng0 =
      ApiResponse.err 500 "Cannot choose from an empty sequence" ∧
    getSingleLocation (some "ABC123") cfgEmptyLoc rng0 ≠
      ApiResponse.err 500 "no locations configured" := by
  constructor <;> decide

/-- C7 (amended): with an empty locations list, resolution raises
(`IndexError("Cannot choose from an empty sequence")` from
`random.choice`) rather than returning a placeholder location, and the
single-location endpoint surfaces it as a 500 structured error carrying
that message — never a success payload. -/
theorem c7_empty_locations (cfg : Config) (p : String) (rng : Rng)
    (hempty : cfg.locations = []) (hp : p ≠ "") :
    resolveBaseA (some p) cfg (rng.choice 0) =
      Except.error "Cannot choose from an empty sequence" ∧
    getSingleLocation (some p) cfg rng =
      ApiResponse.err 500 "Cannot choose from an empty sequence" ∧
    ∀ r, getSingleLocation (some p) cfg rng ≠ ApiResponse.success r := by
  have hres : resolveBaseA (some p) cfg (rng.choice 0) =
      Except.error "Cannot choose from an empty sequence" := by
    rw [resolveBaseA, hempty]
    simp only [ne_eq, hp, not_false_eq_true, if_true]
    rcases hlk : cfg.plate_mappings.lookup p with _ | city <;> rfl
  have hsingle : getSingleLocation (some p) cfg rng =
      ApiResponse.err 500 "Cannot choose from an empty sequence" := by
    rw [getSingleLocation, if_neg hp, generateA, hres]
  refine ⟨hres, hsingle, ?_⟩
  intro r hcon
  rw [hsingle] at hcon
  exact ApiResponse.noConfusion hcon

/-- Witness for C7 (amended): the concrete empty-locations configuration
yields the 500 IndexError response. -/
theorem c7_witness :
    cfgEmptyLoc.locations = [] ∧ (("ABC123" : String) ≠ "") ∧
    (resolveBaseA (some "ABC123") cfgEmptyLoc (rng0.choice 0) =
      Except.error "Cannot choose from an empty sequence" ∧
    getSingleLocation (some "ABC123") cfgEmptyLoc rng0 =
      ApiResponse.err 500 "Cannot choose from an empty sequence" ∧
    ∀ r, getSingleLocation (some "ABC123") cfgEmptyLoc rng0 ≠
      ApiResponse.success r) :=
  ⟨rfl, by decide,
   c7_empty_locations cfgEmptyLoc "ABC123" rng0 rfl (by decide)⟩

/-- Any complete location row (all four fields non-empty) whose latitude
or longitude fails to parse makes `collectLocations` raise. -/
theorem collectLocations_error (rows : List LocRow)
    (hbad : ∃ row ∈ rows, row.name ≠ "" ∧ truthyStr row.lat ∧
      truthyStr row.lng ∧ truthyStr row.country ∧
      (pyFloat (row.lat.getD "") = none ∨ pyFloat (row.lng.getD "") = none)) :
    ∃ e, collectLocations rows = Except.error e := by
  induction rows with
  | nil =>
    obtain ⟨row, hmem, _⟩ := hbad
    cases hmem
  | cons row rest ih =>
    obtain ⟨r0, hmem, hr0⟩ := hbad
    by_cases hcomplete : row.name ≠ "" ∧ truthyStr row.lat = true ∧
        truthyStr row.lng = true ∧ truthyStr row.country = true
    · rw [collectLocations, if_pos hcomplete]
      rcases hla : pyFloat (row.lat.getD "") with _ | la
      · exact ⟨_, rfl⟩
      · rcases hln : pyFloat (row.lng.getD "") with _ | ln
        · exact ⟨_, rfl⟩
        · rcases List.mem_cons.mp hmem with rfl | hmem'
          · rcases hr0.2.2.2.2 with hbadl | hbadl
            · rw [hla] at hbadl; cases hbadl
            · rw [hln] at hbadl; cases hbadl
          · obtain ⟨e, he⟩ := ih ⟨r0, hmem', hr0⟩
            rw [he]
            exact ⟨e, rfl⟩
    · rw [collectLocations, if_neg hcomplete]
      rcases List.mem_cons.mp hmem with rfl | hmem'
      · exact absurd ⟨hr0.1, hr0.2.1, hr0.2.2.1, hr0.2.2.2.1⟩ hcomplete
      · exact ih ⟨r0, hmem', hr0⟩

/-- Counterexample to C8 as stated: a submission containing a row with
name present and non-numeric latitude "abc" — but an empty country
field — is silently dropped: the edit succeeds (redirect, save called)
and the stored configuration changes (the API keys are wiped). -/
theorem c8_counterexample :
    pyFloat "abc" = none ∧
    (updateConfigRoute formRowDropped cfgKeys).1 = UpdateResult.redirect ∧
    (updateConfigRoute formRowDropped cfgKeys).2 ≠ cfgKeys := by
  refine ⟨by decide, rfl, ?_⟩
  intro hcon
  have hkeys : (updateConfigRoute formRowDropped cfgKeys).2.api_keys =
      cfgKeys.api_keys := by rw [hcon]
  have hempty : (updateConfigRoute formRowDropped cfgKeys).2.api_keys = [] := rfl
  rw [hempty] at hkeys
  exact List.cons_ne_nil _ _ hkeys.symm

/-- C8 (amended): a submission containing a location row with all four
fields non-empty whose latitude or longitude does not parse as a float
fails the whole edit — the route answers with the plain-text 500 error
and the stored configuration is exactly what it was (save never runs);
rows with an empty or missing field are instead dropped silently. -/
theorem c8_complete_row_error (form : EditForm) (cfg : Config)
    (hbad : ∃ row ∈ form.locationRows, row.name ≠ "" ∧ truthyStr row.lat ∧
      truthyStr row.lng ∧ truthyStr row.country ∧
      (pyFloat (row.lat.getD "") = none ∨ pyFloat (row.lng.getD "") = none)) :
    ∃ msg, (updateConfigRoute form cfg).1 =
        UpdateResult.errorText 500 ("Error updating configuration: " ++ msg) ∧
      (updateConfigRoute form cfg).2 = cfg := by
  obtain ⟨e, he⟩ := collectLocations_error form.locationRows hbad
  have herr : ∃ m, updateConfig form cfg = Except.error m := by
    simp only [updateConfig]
    rcases hmx : form.max_locations with _ | s
    · simp only [he]
      exact ⟨e, rfl⟩
    · rcases hpi : pyInt s with _ | n
      · simp only [hpi]
        exact ⟨_, rfl⟩
      · simp only [hpi, he]
        exact ⟨e, rfl⟩
  obtain ⟨m, hm⟩ := herr
  rw [updateConfigRoute, hm]
  exact ⟨m, rfl, rfl⟩

/-- Witness for C8 (amended): the complete row (A, "abc", "2", B) aborts
the edit with the float conversion error and leaves the stored
configuration untouched. -/
theorem c8_witness :
    (∃ row ∈ formRowBad.locationRows, row.name ≠ "" ∧ truthyStr row.lat ∧
      truthyStr row.lng ∧ truthyStr row.country ∧
      (pyFloat (row.lat.getD "") = none ∨ pyFloat (row.lng.getD "") = none)) ∧
    (∃ msg, (updateConfigRoute formRowBad cfgKeys).1 =
        UpdateResult.errorText 500 ("Error updating configuration: " ++ msg) ∧
      (updateConfigRoute formRowBad cfgKeys).2 = cfgKeys) :=
  ⟨by decide, c8_complete_row_error formRowBad cfgKeys (by decide)⟩

/-- C9: every successful edit leaves `locations` untouched when the set
of valid submitted rows is empty and replaces it when non-empty, while
the API keys, plate mappings, response format, timestamp flag and
request cap are updated either way. -/
theorem c9_edit_frame (form : EditForm) (cfg cfg' : Config)
    (ls : List Location)
    (hrows : collectLocations form.locationRows = Except.ok ls)
    (hok : updateConfig form cfg = Except.ok cfg') :
    cfg'.locations = (if ls = [] then cfg.locations else ls) ∧
    cfg'.api_keys = collectApiKeys form.apiKeys ∧
    cfg'.plate_mappings = collectPlates form.plates ∧
    cfg'.response_format = form.response_format.getD "detailed" ∧
    (cfg'.include_timestamp = true ↔ form.include_timestamp = some "true") ∧
    (form.max_locations = none → cfg'.max_locations_per_request = 10) ∧
    (∀ s, form.max_locations = some s →
      pyInt s = some cfg'.max_locations_per_request) := by
  simp only [updateConfig] at hok
  rcases hmx : form.max_locations with _ | s
  · rw [hmx] at hok
    simp only [hrows] at hok
    injection hok with h'
    subst h'
    refine ⟨rfl, rfl, rfl, rfl, ?_, fun _ => rfl, fun s2 hs2 => by cases hs2⟩
    simp
  · rw [hmx] at hok
    simp only [] at hok
    rcases hpi : pyInt s with _ | n
    · simp only [hpi] at hok
      cases hok
    · simp only [hpi, hrows] at hok
      injection hok with h'
      subst h'
      refine ⟨rfl, rfl, rfl, rfl, ?_, ?_, ?_⟩
      · simp
      · intro hcon
        exact Option.noConfusion hcon
      · intro s2 hs2
        injection hs2 with h2
        subst h2
        rw [hpi]

/-- Witness for C9: submitting zero location rows against `cfgKeys`
leaves `locations` as they were while resetting the other fields, giving
back exactly `baseCfg`. -/
theorem c9_witness :
    collectLocations formNoRows.locationRows = Except.ok [] ∧
    updateConfig formNoRows cfgKeys = Except.ok baseCfg ∧
    (baseCfg.locations =
        (if ([] : List Location) = [] then cfgKeys.locations else []) ∧
     baseCfg.api_keys = collectApiKeys formNoRows.apiKeys ∧
     baseCfg.plate_mappings = collectPlates formNoRows.plates ∧
     baseCfg.response_format = formNoRows.response_format.getD "detailed" ∧
     (baseCfg.include_timestamp = true ↔
       formNoRows.include_timestamp = some "true") ∧
     (formNoRows.max_locations = none →
       baseCfg.max_locations_per_request = 10) ∧
     (∀ s, formNoRows.max_locations = some s →
        pyInt s = some baseCfg.max_locations_per_request)) :=
  ⟨rfl, rfl, c9_edit_frame formNoRows cfgKeys baseCfg [] rfl rfl⟩

/-- C10: an empty-string credential is treated as absent — an empty
X-API-Key header cedes to the query parameter, and an empty effective
credential is rejected with the 401 missing-key response, never 403 and
never allowed, even when the empty string is among the configured
keys. -/
theorem c10_empty_string_credential (query : Option String)
    (keys : List String) :
    (requireApiKey (some "") query keys = requireApiKey none query keys) ∧
    ((query = none ∨ query = some "") →
      requireApiKey (some "") query keys = AuthDecision.deny 401 msg401) ∧
    ("" ∈ keys → requireApiKey (some "") (some "") keys =
      AuthDecision.deny 401 msg401) := by
  refine ⟨rfl, ?_, fun _ => rfl⟩
  rintro (rfl | rfl) <;> rfl

/-- Witness for C10: with the empty string itself a configured key, an
empty header plus empty query still yield the 401 response. -/
theorem c10_witness :
    (requireApiKey (some "") (some "") [""] =
      requireApiKey none (some "") [""]) ∧
    (((some "" : Option String) = none ∨ (some "" : Option String) = some "") ∧
      requireApiKey (some "") (some "") [""] =
        AuthDecision.deny 401 msg401) ∧
    (("" ∈ [""]) ∧ requireApiKey (some "") (some "") [""] =
      AuthDecision.deny 401 msg401) :=
  ⟨(c10_empty_string_credential (some "") [""]).1,
   ⟨Or.inr rfl, (c10_empty_string_credential (some "") [""]).2.1 (Or.inr rfl)⟩,
   ⟨by decide, (c10_empty_string_credential (some "") [""]).2.2 (by decide)⟩⟩

end Optifleet
